import Mathlib

/-
  Verification development for the Watercryst BIOCAT Home Assistant
  integration (custom_components/watercryst_biocat).

  The embedding models the asynchronous API client in `api.py` and the
  data-update coordinator in `__init__.py` as pure state-passing
  functions.  The HTTP side is modelled by a scripted environment: a
  `World` holds the list of network outcomes the backend will produce
  (consumed one per HTTP attempt), a log of the issued requests (with
  completion timestamps) and a wall clock that advances by each
  response's network duration.  Python exceptions become `Except`
  results; the exception hierarchy WatercrystApiError >
  (WatercrystAuthError, WatercrystConnectionError) is modelled by the
  `ApiError` type, where every constructor is an instance of the base
  WatercrystApiError class (so a handler for the base class catches all
  three).  Python `None` and JSON `null` are both modelled by
  `Json.null`, and Python truthiness by `Json.truthy`.
-/

namespace Watercryst

/-- JSON values (and, simultaneously, the dynamically typed Python values
the client stores, e.g. `self._access_token : str | None`). -/
inductive Json where
  | null
  | bool (b : Bool)
  | num (q : ℚ)
  | str (s : String)
  | arr (elems : List Json)
  | obj (fields : List (String × Json))

/-- Python truthiness of a JSON/Python value (`bool(x)`). -/
def Json.truthy : Json → Bool
  | .null => false
  | .bool b => b
  | .num q => if q = 0 then false else true
  | .str s => if s = "" then false else true
  | .arr elems => !elems.isEmpty
  | .obj fields => !fields.isEmpty

/-- Python `str(x)`, as used by f-string interpolation.  Only the `null`
and `str` cases occur in the modelled flows (tokens and device ids). -/
def Json.pyStr : Json → String
  | .null => "None"
  | .bool true => "True"
  | .bool false => "False"
  | .num q => toString q
  | .str s => s
  | .arr _ => "[list]"
  | .obj _ => "[dict]"

/-- Is this value JSON null / Python `None`? -/
def Json.isNull : Json → Bool
  | .null => true
  | _ => false

/-- The string payload of a `Json.str`, if any. -/
def Json.strVal? : Json → Option String
  | .str s => some s
  | _ => none

/-- Key lookup on a JSON object: `some v` when the key is present (its
value may itself be `null`), `none` when absent.  Models the key test of
Python `dict.get`; non-dict receivers do not occur in the modelled
flows. -/
def Json.getKey? : Json → String → Option Json
  | .obj fields, k => fields.lookup k
  | _, _ => none

/-- Python `data.get(k)`: the stored value when the key is present
(possibly `None`), else `None`. -/
def Json.pyGet (j : Json) (k : String) : Json :=
  (j.getKey? k).getD Json.null

/-- Python `data.get(k, d)`: the stored value when the key is present
(possibly `None`), else the default `d`. -/
def Json.pyGetD (j : Json) (k : String) (d : Json) : Json :=
  (j.getKey? k).getD d

/-! Constants from `const.py`. -/

def API_BASE_URL : String := "https://appapi.watercryst.com"
def ENDPOINT_LOGIN : String := "/auth/login"
def ENDPOINT_REFRESH : String := "/auth/refresh"
def ENDPOINT_DEVICES : String := "/devices"
def ENDPOINT_MEASUREMENTS : String := "/measurements"
def ENDPOINT_STATISTICS : String := "/statistics"
def ENDPOINT_ABSENCE : String := "/absence"
def ENDPOINT_LEAKAGE_PROTECTION : String := "/leakageprotection"
def ENDPOINT_SELFTEST : String := "/selftest"
def ENDPOINT_WATER_SUPPLY : String := "/watersupply"
def ENDPOINT_STATE : String := "/state"

/-! The scripted HTTP environment. -/

/-- One HTTP response of the backend: its status code, the value
`response.json()` would produce for its body, the value
`response.text()` would produce, and the wall-clock duration of the
network round trip. -/
structure HttpResponse where
  status : Nat
  body : Json
  text : String
  duration : ℤ

/-- Outcome of one attempted HTTP request: a response, a low-level
connection failure (`aiohttp.ClientConnectionError`), or expiry of the
15-second request timeout (`TimeoutError`). -/
inductive NetResult where
  | ok (resp : HttpResponse)
  | connError
  | timedOut

/-- A record of one issued HTTP attempt: method, full URL, the
`Authorization` header (when one was attached), the JSON payload
(`Json.null` when the request had no body) and the wall-clock time at
which the attempt completed. -/
structure RequestRecord where
  method : String
  url : String
  auth : Option String
  body : Json
  completedAt : ℤ

/-- The environment: the scripted backend outcomes still to be consumed,
the log of issued requests, and the wall clock. -/
structure World where
  script : List NetResult
  log : List RequestRecord
  clock : ℤ

/-- Issue one HTTP attempt: consume the next scripted outcome, advance
the clock by its network duration and append a log record.  An exhausted
script behaves like a connection failure. -/
def httpCall (w : World) (method url : String) (auth : Option String) (body : Json) :
    NetResult × World :=
  match w.script with
  | [] =>
    (NetResult.connError,
     { script := [], log := w.log ++ [⟨method, url, auth, body, w.clock⟩], clock := w.clock })
  | r :: rest =>
    let d : ℤ := match r with | .ok resp => resp.duration | _ => 0
    (r, { script := rest,
          log := w.log ++ [⟨method, url, auth, body, w.clock + d⟩],
          clock := w.clock + d })

/-- The exception hierarchy of `api.py`.  Every constructor is a
`WatercrystApiError`; `authError` is `WatercrystAuthError` and
`connectionError` is `WatercrystConnectionError`. -/
inductive ApiError where
  | authError (msg : String)
  | connectionError (msg : String)
  | apiError (msg : String)

/-- Is this exception a `WatercrystAuthError`? -/
def ApiError.isAuthError : ApiError → Bool
  | .authError _ => true
  | _ => false

/-- Is this exception a `WatercrystConnectionError`? -/
def ApiError.isConnectionError : ApiError → Bool
  | .connectionError _ => true
  | _ => false

/-- The mutable attributes of a `WatercrystApiClient` instance.  Token
and device-id attributes have Python type `str | None` and are stored as
dynamically typed values. -/
structure ClientState where
  username : String
  password : String
  access_token : Json
  refresh_token : Json
  device_id : Json

/-- Full URL of an endpoint: `f"{self._base_url}{endpoint}"`. -/
def urlOf (endpoint : String) : String := API_BASE_URL ++ endpoint

/-- The `Authorization` header attached by `_request` when
`auth_required` holds: present exactly when `self._access_token` is
truthy. -/
def authHeaderOf (st : ClientState) : Option String :=
  if st.access_token.truthy then some ("Bearer " ++ st.access_token.pyStr) else none

/-- The status-evaluation block of `_request` (api.py lines 489-501),
applied to whichever response survived the optional 401 retry: HTTP
401/403 raise `WatercrystAuthError`, any other status ≥ 400 raises
`WatercrystApiError` carrying the body text, otherwise the parsed JSON
body is returned. -/
def classify (resp : HttpResponse) : Except ApiError Json :=
  if resp.status = 401 ∨ resp.status = 403 then
    Except.error (ApiError.authError
      ("Authentifizierung fehlgeschlagen (HTTP " ++ toString resp.status ++ ")"))
  else if 400 ≤ resp.status then
    Except.error (ApiError.apiError
      ("API-Fehler: HTTP " ++ toString resp.status ++ " – " ++ resp.text))
  else
    Except.ok resp.body

/-- `_request` with `auth_required=False` (the login and refresh calls):
no `Authorization` header is attached and the 401-refresh-retry branch is
disabled, so the outcome is the plain classification of the single
attempt; connection failures and timeouts become
`WatercrystConnectionError`. -/
def request_noauth (w : World) (method endpoint : String) (json_data : Json) :
    Except ApiError Json × World :=
  match httpCall w method (urlOf endpoint) none json_data with
  | (NetResult.connError, w') =>
    (Except.error (ApiError.connectionError "Verbindung zur Watercryst-API fehlgeschlagen"), w')
  | (NetResult.timedOut, w') =>
    (Except.error (ApiError.connectionError "Timeout bei der Verbindung zur Watercryst-API"), w')
  | (NetResult.ok resp, w') => (classify resp, w')

/-- `WatercrystApiClient.authenticate`: POST the credentials to the login
endpoint; any `WatercrystApiError` from the request (including a
`WatercrystConnectionError`, which is a subclass) is re-raised as
`WatercrystAuthError`; otherwise both tokens are overwritten with the
response fields and `WatercrystAuthError` is raised afterwards when the
stored access token is not truthy. -/
def authenticate (st : ClientState) (w : World) :
    Except ApiError Bool × ClientState × World :=
  match request_noauth w "POST" ENDPOINT_LOGIN
      (Json.obj [("username", Json.str st.username), ("password", Json.str st.password)]) with
  | (Except.error _, w') =>
    (Except.error (ApiError.authError "Authentifizierung fehlgeschlagen"), st, w')
  | (Except.ok data, w') =>
    if (data.pyGet "access_token").truthy then
      (Except.ok true,
       { st with access_token := data.pyGet "access_token",
                 refresh_token := data.pyGet "refresh_token" }, w')
    else
      (Except.error (ApiError.authError "Kein Access-Token in der API-Antwort erhalten"),
       { st with access_token := data.pyGet "access_token",
                 refresh_token := data.pyGet "refresh_token" }, w')

/-- `WatercrystApiClient.refresh_access_token`: with no truthy refresh
token, fall back to `authenticate`; otherwise POST the refresh token and
on success overwrite the access token with `data.get("access_token")`
and the refresh token with `data.get("refresh_token",
self._refresh_token)`; on any `WatercrystApiError`, fall back to
`authenticate`. -/
def refresh_access_token (st : ClientState) (w : World) :
    Except ApiError Bool × ClientState × World :=
  if st.refresh_token.truthy then
    match request_noauth w "POST" ENDPOINT_REFRESH
        (Json.obj [("refresh_token", st.refresh_token)]) with
    | (Except.ok data, w') =>
      (Except.ok true,
       { st with access_token := data.pyGet "access_token",
                 refresh_token := data.pyGetD "refresh_token" st.refresh_token }, w')
    | (Except.error _, w') => authenticate st w'
  else
    authenticate st w

/-- `WatercrystApiClient._request` with the default `auth_required=True`
(every call site except login/refresh): attach the bearer header when an
access token is held; on HTTP 401 call `refresh_access_token` (whose own
`WatercrystAuthError` propagates uncaught, since `_request` catches only
aiohttp connection errors and timeouts) and retry the original request
once with the freshly stored token; then classify whichever response is
current. -/
def _request (st : ClientState) (w : World) (method endpoint : String) (json_data : Json) :
    Except ApiError Json × ClientState × World :=
  match httpCall w method (urlOf endpoint) (authHeaderOf st) json_data with
  | (NetResult.connError, w') =>
    (Except.error (ApiError.connectionError "Verbindung zur Watercryst-API fehlgeschlagen"), st, w')
  | (NetResult.timedOut, w') =>
    (Except.error (ApiError.connectionError "Timeout bei der Verbindung zur Watercryst-API"), st, w')
  | (NetResult.ok resp, w') =>
    if resp.status = 401 then
      match refresh_access_token st w' with
      | (Except.error e, st', w'') => (Except.error e, st', w'')
      | (Except.ok _, st', w'') =>
        match httpCall w'' method (urlOf endpoint)
            (some ("Bearer " ++ st'.access_token.pyStr)) json_data with
        | (NetResult.connError, w3) =>
          (Except.error (ApiError.connectionError "Verbindung zur Watercryst-API fehlgeschlagen"),
           st', w3)
        | (NetResult.timedOut, w3) =>
          (Except.error (ApiError.connectionError "Timeout bei der Verbindung zur Watercryst-API"),
           st', w3)
        | (NetResult.ok resp2, w3) => (classify resp2, st', w3)
    else (classify resp, st, w')

/-- The shape shared by the seven device-scoped read methods
(`get_state`, `get_measurements`, ...): a GET on
`f"{ENDPOINT}/{self._device_id}"` with no body and `auth_required`
defaulted to True. -/
def fetchPath (p : String) (st : ClientState) (w : World) :
    Except ApiError Json × ClientState × World :=
  _request st w "GET" (p ++ "/" ++ st.device_id.pyStr) Json.null

/-- `WatercrystApiClient.get_state`. -/
def get_state : ClientState → World → Except ApiError Json × ClientState × World :=
  fetchPath ENDPOINT_STATE

/-- `WatercrystApiClient.get_measurements`. -/
def get_measurements : ClientState → World → Except ApiError Json × ClientState × World :=
  fetchPath ENDPOINT_MEASUREMENTS

/-- `WatercrystApiClient.get_absence`. -/
def get_absence : ClientState → World → Except ApiError Json × ClientState × World :=
  fetchPath ENDPOINT_ABSENCE

/-- `WatercrystApiClient.get_leakage_protection`. -/
def get_leakage_protection : ClientState → World → Except ApiError Json × ClientState × World :=
  fetchPath ENDPOINT_LEAKAGE_PROTECTION

/-- `WatercrystApiClient.get_selftest`. -/
def get_selftest : ClientState → World → Except ApiError Json × ClientState × World :=
  fetchPath ENDPOINT_SELFTEST

/-- `WatercrystApiClient.get_water_supply`. -/
def get_water_supply : ClientState → World → Except ApiError Json × ClientState × World :=
  fetchPath ENDPOINT_WATER_SUPPLY

/-- `WatercrystApiClient.get_statistics`. -/
def get_statistics : ClientState → World → Except ApiError Json × ClientState × World :=
  fetchPath ENDPOINT_STATISTICS

/-- `WatercrystApiClient.get_devices`: GET the devices list; when the
list is truthy and `self._device_id` is falsy, store the first device's
id; return the list. -/
def get_devices (st : ClientState) (w : World) :
    Except ApiError Json × ClientState × World :=
  match _request st w "GET" ENDPOINT_DEVICES Json.null with
  | (Except.error e, st', w') => (Except.error e, st', w')
  | (Except.ok data, st', w') =>
    let devices := data.pyGetD "devices" (Json.arr [])
    if devices.truthy ∧ st'.device_id.truthy = false then
      match devices with
      | Json.arr (d :: _) => (Except.ok devices, { st' with device_id := d.pyGet "id" }, w')
      | _ => (Except.ok devices, st', w')
    else (Except.ok devices, st', w')

/-- A category fetch as used by the aggregation loop. -/
abbrev Fetch := ClientState → World → Except ApiError Json × ClientState × World

/-- The `endpoints` dict of `get_all_data`, in source (insertion)
order. -/
def endpointsList : List (String × Fetch) :=
  [("state", get_state),
   ("measurements", get_measurements),
   ("absence", get_absence),
   ("leakage_protection", get_leakage_protection),
   ("selftest", get_selftest),
   ("water_supply", get_water_supply),
   ("statistics", get_statistics)]

/-- The body of the `for key, method in endpoints.items()` loop of
`get_all_data`: run the category's fetch; on success store its value
under the key, on any `WatercrystApiError` (the base class, hence also
auth and connection errors) store an empty dict instead.  State and
world effects of the failed call are kept, as in Python. -/
def allDataStep (acc : List (String × Json) × ClientState × World) (e : String × Fetch) :
    List (String × Json) × ClientState × World :=
  match acc, e with
  | (result, st, w), (key, m) =>
    match m st w with
    | (Except.ok v, st', w') => (result ++ [(key, v)], st', w')
    | (Except.error _, st', w') => (result ++ [(key, Json.obj [])], st', w')

/-- `WatercrystApiClient.get_all_data`: fetch the seven categories
sequentially, isolating each category's `WatercrystApiError`.  The
declared result type allows a raised `WatercrystApiError` (as the Python
signature implicitly does), but the loop body catches every such error,
so the function in fact always returns. -/
def get_all_data (st : ClientState) (w : World) :
    Except ApiError (List (String × Json)) × ClientState × World :=
  match endpointsList.foldl allDataStep ([], st, w) with
  | (result, st', w') => (Except.ok result, st', w')

/-- The two failure signals a Home Assistant data-update coordinator can
surface from `_async_update_data`. -/
inductive HaError where
  | configEntryAuthFailed (msg : String)
  | updateFailed (msg : String)

/-- Is this outcome the distinct needs-re-authentication signal? -/
def isAuthSignal : Except HaError (List (String × Json)) → Bool
  | Except.error (HaError.configEntryAuthFailed _) => true
  | _ => false

/-- `WatercrystDataUpdateCoordinator._async_update_data`: call
`get_all_data`; map `WatercrystAuthError` to `ConfigEntryAuthFailed`,
`WatercrystConnectionError` and any other `WatercrystApiError` to
`UpdateFailed`. -/
def _async_update_data (st : ClientState) (w : World) :
    Except HaError (List (String × Json)) × ClientState × World :=
  match get_all_data st w with
  | (Except.ok data, st', w') => (Except.ok data, st', w')
  | (Except.error e, st', w') =>
    match e with
    | ApiError.authError _ =>
      (Except.error (HaError.configEntryAuthFailed
        "Authentifizierung bei der Watercryst-API fehlgeschlagen"), st', w')
    | ApiError.connectionError m =>
      (Except.error (HaError.updateFailed
        ("Verbindung zur Watercryst-API fehlgeschlagen: " ++ m)), st', w')
    | ApiError.apiError m =>
      (Except.error (HaError.updateFailed
        ("Fehler beim Abrufen der Watercryst-Daten: " ++ m)), st', w')

/-- Number of logged HTTP attempts against a given URL. -/
def countUrl (log : List RequestRecord) (u : String) : Nat :=
  (log.filter (fun r => r.url == u)).length

/-! Concrete fixtures used by the witnesses and counterexamples. -/

/-- A client that has logged in (both tokens held) and has its device id
set, as after a successful `async_setup_entry`. -/
def stReady : ClientState := ⟨"user", "pw", Json.str "tokA", Json.str "tokR", Json.str "dev1"⟩

/-! Per-category outcomes, used to quantify over all assignments of
results to the seven category fetches of `get_all_data`. -/

/-- The observable outcome of one category fetch: a parsed success body,
or one of the `WatercrystApiError` flavours a fetch can raise (a network
failure, HTTP 403, HTTP 404, HTTP 500). -/
inductive CatOutcome where
  | success (v : Json)
  | connFail
  | authFail
  | notFound
  | serverError

/-- The scripted backend behaviour realising a category outcome. -/
def scriptEntry : CatOutcome → NetResult
  | .success v => NetResult.ok ⟨200, v, "", 0⟩
  | .connFail => NetResult.connError
  | .authFail => NetResult.ok ⟨403, Json.null, "Forbidden", 0⟩
  | .notFound => NetResult.ok ⟨404, Json.null, "Not Found", 0⟩
  | .serverError => NetResult.ok ⟨500, Json.null, "Internal Server Error", 0⟩

/-- The entry `get_all_data` stores for a category with the given
outcome: the parsed body on success, an empty dict on any error. -/
def entryOf : CatOutcome → Json
  | .success v => v
  | _ => Json.obj []

/-- A backend that answers every request with HTTP 404, for `n`
requests. -/
def notFoundScript (n : Nat) : List NetResult :=
  List.replicate n (scriptEntry CatOutcome.notFound)

/-- The snapshot produced by a poll cycle in which every category
fetch failed. -/
def allEmpty : List (String × Json) :=
  [("state", Json.obj []), ("measurements", Json.obj []), ("absence", Json.obj []),
   ("leakage_protection", Json.obj []), ("selftest", Json.obj []),
   ("water_supply", Json.obj []), ("statistics", Json.obj [])]

/-- The request record of one device-scoped GET issued by `stReady`. -/
def devRec (p : String) (clock : ℤ) : RequestRecord :=
  ⟨"GET", urlOf (p ++ "/" ++ stReady.device_id.pyStr), authHeaderOf stReady, Json.null, clock⟩

/-- The seven request records of one full `get_all_data` cycle issued by
`stReady` when every response has network duration 0. -/
def cycleRecs (clock : ℤ) : List RequestRecord :=
  [devRec ENDPOINT_STATE clock, devRec ENDPOINT_MEASUREMENTS clock,
   devRec ENDPOINT_ABSENCE clock, devRec ENDPOINT_LEAKAGE_PROTECTION clock,
   devRec ENDPOINT_SELFTEST clock, devRec ENDPOINT_WATER_SUPPLY clock,
   devRec ENDPOINT_STATISTICS clock]

/-- A backend that answers two requests instantly (duration 0) with
HTTP 200 and an empty JSON object. -/
def w2ok : World :=
  ⟨[NetResult.ok ⟨200, Json.obj [], "", 0⟩, NetResult.ok ⟨200, Json.obj [], "", 0⟩], [], 0⟩

/-- A backend for one `get_state` call: the state endpoint returns 401,
the token refresh returns 500 and the fallback login returns 401. -/
def wC4state : World :=
  ⟨[NetResult.ok ⟨401, Json.null, "", 0⟩, NetResult.ok ⟨500, Json.null, "boom", 0⟩,
    NetResult.ok ⟨401, Json.null, "", 0⟩], [], 0⟩

/-- A backend for one full poll cycle in which the state fetch runs into
an unrecoverable auth failure (401, refresh 500, login 401) and the six
remaining categories succeed. -/
def wC4 : World :=
  ⟨[NetResult.ok ⟨401, Json.null, "", 0⟩, NetResult.ok ⟨500, Json.null, "boom", 0⟩,
    NetResult.ok ⟨401, Json.null, "", 0⟩,
    NetResult.ok ⟨200, Json.obj [("pressure", Json.num 3)], "", 0⟩,
    NetResult.ok ⟨200, Json.obj [], "", 0⟩, NetResult.ok ⟨200, Json.obj [], "", 0⟩,
    NetResult.ok ⟨200, Json.obj [], "", 0⟩, NetResult.ok ⟨200, Json.obj [], "", 0⟩,
    NetResult.ok ⟨200, Json.obj [], "", 0⟩], [], 0⟩

/-- Two full poll cycles against a backend that always answers 404. -/
def w404 : World := ⟨notFoundScript 14, [], 0⟩

/-- The state body of the end-to-end scenario of the spec. -/
def stateBody : Json :=
  Json.obj [("mode", Json.obj [("name", Json.str "Normal")]), ("online", Json.bool true),
    ("waterProtection", Json.obj [("leakageDetected", Json.bool false)]),
    ("error", Json.bool false), ("warning", Json.bool false)]

/-- The measurements body of the end-to-end scenario of the spec. -/
def measBody : Json := Json.obj [("waterTemp", Json.num 12.5), ("pressure", Json.num 3.2)]

/-- The backend of the end-to-end scenario: state and measurements as in
the spec, empty objects for the four middle categories, and the daily
statistics value 109.56 (delivered as JSON, since `_request` parses
bodies only with `response.json()`). -/
def w8 : World :=
  ⟨[NetResult.ok ⟨200, stateBody, "", 0⟩, NetResult.ok ⟨200, measBody, "", 0⟩,
    NetResult.ok ⟨200, Json.obj [], "", 0⟩, NetResult.ok ⟨200, Json.obj [], "", 0⟩,
    NetResult.ok ⟨200, Json.obj [], "", 0⟩, NetResult.ok ⟨200, Json.obj [], "", 0⟩,
    NetResult.ok ⟨200, Json.num 109.56, "109.56", 0⟩], [], 0⟩

/-- A refresh endpoint that returns a new access token and an explicit
null refresh token. -/
def wRefreshNull : World :=
  ⟨[NetResult.ok ⟨200, Json.obj [("access_token", Json.str "A1"), ("refresh_token", Json.null)],
    "", 0⟩], [], 0⟩

/-- A login endpoint that answers 2xx with an empty-string access token
and a refresh token. -/
def wLoginEmptyTok : World :=
  ⟨[NetResult.ok ⟨200, Json.obj [("access_token", Json.str ""), ("refresh_token", Json.str "R")],
    "", 0⟩], [], 0⟩

/-- A client whose device id is set to the empty string: not None, but
falsy for Python truthiness. -/
def stEmptyId : ClientState := ⟨"user", "pw", Json.str "tokA", Json.str "tokR", Json.str ""⟩

/-- A devices endpoint listing two devices. -/
def wDevices : World :=
  ⟨[NetResult.ok ⟨200, Json.obj [("devices",
    Json.arr [Json.obj [("id", Json.str "dev1")], Json.obj [("id", Json.str "dev2")]])],
    "", 0⟩], [], 0⟩

/-- A backend for the auth-retry scenario: the first request receives
401, the token refresh succeeds with a new access token, and the raw
retry of the original request succeeds. -/
def wRetry : World :=
  ⟨[NetResult.ok ⟨401, Json.null, "", 0⟩,
    NetResult.ok ⟨200, Json.obj [("access_token", Json.str "A1")], "", 0⟩,
    NetResult.ok ⟨200, Json.obj [("x", Json.bool true)], "", 0⟩], [], 0⟩

/-! Helper lemmas. -/

/-- One iteration of the `get_all_data` loop on a device-scoped fetch
whose next scripted outcome is `scriptEntry o`: the fetch consumes
exactly that one outcome, contributes `entryOf o` under its key, and
leaves the client state untouched. -/
theorem allDataStep_step (p key : String) (o : CatOutcome) (st : ClientState)
    (acc : List (String × Json)) (rest : List NetResult) (log : List RequestRecord)
    (clock : ℤ) :
    allDataStep (acc, st, ⟨scriptEntry o :: rest, log, clock⟩) (key, fetchPath p) =
      (acc ++ [(key, entryOf o)], st,
       ⟨rest,
        log ++ [⟨"GET", urlOf (p ++ "/" ++ st.device_id.pyStr), authHeaderOf st,
          Json.null, clock⟩],
        clock⟩) := by
  cases o <;>
    simp [allDataStep, fetchPath, _request, httpCall, scriptEntry, classify, entryOf]

/-- `get_all_data` always returns: the per-category handler catches
every `WatercrystApiError`, and no other exception type arises in the
modelled flows. -/
theorem get_all_data_returns (st : ClientState) (w : World) :
    ∃ d st' w', get_all_data st w = (Except.ok d, st', w') := by
  rcases h : endpointsList.foldl allDataStep ([], st, w) with ⟨res, st', w'⟩
  exact ⟨res, st', w', by simp [get_all_data, h]⟩

/-- Counting requests distributes over log concatenation. -/
theorem countUrl_append (a b : List RequestRecord) (u : String) :
    countUrl (a ++ b) u = countUrl a u + countUrl b u := by
  simp [countUrl, List.filter_append]

/-- A log whose records all target other URLs contributes no requests to
the count for `u`. -/
theorem countUrl_zero (l : List RequestRecord) (u : String)
    (h : ∀ rec ∈ l, rec.url ≠ u) : countUrl l u = 0 := by
  induction l with
  | nil => rfl
  | cons a t ih =>
    have ha : (a.url == u) = false := by
      simpa [beq_eq_false_iff_ne] using h a (by simp)
    have ht : countUrl t u = 0 := ih (fun rec hr => h rec (by simp [hr]))
    simpa [countUrl, List.filter, ha] using ht

/-- A single record targeting `u` counts once. -/
theorem countUrl_single_self (m u : String) (a : Option String) (b : Json) (t : ℤ) :
    countUrl [⟨m, u, a, b, t⟩] u = 1 := by
  simp [countUrl, List.filter]

/-- Every HTTP attempt appends exactly one record, carrying the request
method, URL, auth header and body. -/
theorem httpCall_log (w : World) (m u : String) (a : Option String) (b : Json) :
    (httpCall w m u a b).2.log =
      w.log ++ [⟨m, u, a, b, (httpCall w m u a b).2.clock⟩] := by
  unfold httpCall
  cases w.script <;> simp

/-- An unauthenticated request logs exactly one attempt against its
endpoint. -/
theorem request_noauth_log (w : World) (m e : String) (j : Json) :
    (request_noauth w m e j).2.log =
      w.log ++ [⟨m, urlOf e, none, j, (request_noauth w m e j).2.clock⟩] := by
  unfold request_noauth
  have h := httpCall_log w m (urlOf e) none j
  rcases hc : httpCall w m (urlOf e) none j with ⟨nr, w'⟩
  rw [hc] at h
  cases nr <;> simpa using h

/-- `authenticate` issues exactly one HTTP attempt, against the login
endpoint. -/
theorem authenticate_log (st : ClientState) (w : World) :
    ∃ t, (authenticate st w).2.2.log =
      w.log ++ [⟨"POST", urlOf ENDPOINT_LOGIN, none,
        Json.obj [("username", Json.str st.username), ("password", Json.str st.password)], t⟩] := by
  have h := request_noauth_log w "POST" ENDPOINT_LOGIN
    (Json.obj [("username", Json.str st.username), ("password", Json.str st.password)])
  rcases hr : request_noauth w "POST" ENDPOINT_LOGIN
      (Json.obj [("username", Json.str st.username), ("password", Json.str st.password)]) with ⟨res, w'⟩
  rw [hr] at h
  dsimp only at h
  refine ⟨w'.clock, ?_⟩
  unfold authenticate
  rw [hr]
  cases res with
  | error e => simpa using h
  | ok data =>
    dsimp only
    split <;> simpa using h

/-- Every exception raised by `authenticate` is a `WatercrystAuthError`:
the method re-wraps any request error and raises the missing-token error
itself. -/
theorem authenticate_error_auth (st : ClientState) (w : World) (e : ApiError)
    (st' : ClientState) (w' : World)
    (h : authenticate st w = (Except.error e, st', w')) : e.isAuthError = true := by
  unfold authenticate at h
  split at h
  · simp only [Prod.mk.injEq] at h
    rcases h with ⟨h1, -⟩
    cases h1
    rfl
  · split at h
    · simp at h
    · simp only [Prod.mk.injEq] at h
      rcases h with ⟨h1, -⟩
      cases h1
      rfl

/-- Every exception raised by `refresh_access_token` is a
`WatercrystAuthError`: its own request errors are caught and turned into
a fallback login, whose errors are auth errors. -/
theorem refresh_error_auth (st : ClientState) (w : World) (e : ApiError)
    (st' : ClientState) (w' : World)
    (h : refresh_access_token st w = (Except.error e, st', w')) : e.isAuthError = true := by
  unfold refresh_access_token at h
  split at h
  · split at h
    · simp at h
    · exact authenticate_error_auth _ _ _ _ _ h
  · exact authenticate_error_auth _ _ _ _ _ h

/-- All HTTP attempts issued inside `refresh_access_token` target the
refresh or the login endpoint, never the caller's original endpoint. -/
theorem refresh_log_urls (st : ClientState) (w : World) :
    ∃ extra, (refresh_access_token st w).2.2.log = w.log ++ extra ∧
      ∀ rec ∈ extra, rec.url = urlOf ENDPOINT_REFRESH ∨ rec.url = urlOf ENDPOINT_LOGIN := by
  unfold refresh_access_token
  split
  · have h := request_noauth_log w "POST" ENDPOINT_REFRESH
      (Json.obj [("refresh_token", st.refresh_token)])
    rcases hr : request_noauth w "POST" ENDPOINT_REFRESH
        (Json.obj [("refresh_token", st.refresh_token)]) with ⟨res, w'⟩
    rw [hr] at h
    dsimp only at h
    cases res with
    | ok data =>
      dsimp only
      exact ⟨[⟨"POST", urlOf ENDPOINT_REFRESH, none,
        Json.obj [("refresh_token", st.refresh_token)], w'.clock⟩], by simpa using h, by simp⟩
    | error e =>
      obtain ⟨t, ht⟩ := authenticate_log st w'
      refine ⟨[⟨"POST", urlOf ENDPOINT_REFRESH, none,
          Json.obj [("refresh_token", st.refresh_token)], w'.clock⟩,
        ⟨"POST", urlOf ENDPOINT_LOGIN, none,
          Json.obj [("username", Json.str st.username), ("password", Json.str st.password)], t⟩],
        ?_, by simp⟩
      dsimp only
      rw [ht, h]
      simp
  · obtain ⟨t, ht⟩ := authenticate_log st w
    exact ⟨[⟨"POST", urlOf ENDPOINT_LOGIN, none,
      Json.obj [("username", Json.str st.username), ("password", Json.str st.password)], t⟩],
      by simpa using ht, by simp⟩

/-- `authenticate` never touches the device id. -/
theorem authenticate_device_id (st : ClientState) (w : World) :
    (authenticate st w).2.1.device_id = st.device_id := by
  unfold authenticate
  split
  · rfl
  · split <;> rfl

/-- `refresh_access_token` never touches the device id. -/
theorem refresh_device_id (st : ClientState) (w : World) :
    (refresh_access_token st w).2.1.device_id = st.device_id := by
  unfold refresh_access_token
  split
  · split
    · rfl
    · exact authenticate_device_id st _
  · exact authenticate_device_id st w

/-- `_request` never touches the device id, on any of its paths
(including the 401-refresh-retry path). -/
theorem request_device_id (st : ClientState) (w : World) (method endpoint : String)
    (body : Json) :
    (_request st w method endpoint body).2.1.device_id = st.device_id := by
  unfold _request
  rcases hc : httpCall w method (urlOf endpoint) (authHeaderOf st) body with ⟨nr, w'⟩
  cases nr with
  | connError => rfl
  | timedOut => rfl
  | ok resp =>
    dsimp only
    by_cases h4 : resp.status = 401
    · rw [if_pos h4]
      rcases hr : refresh_access_token st w' with ⟨res, st', w''⟩
      have hdev : st'.device_id = st.device_id := by
        have := refresh_device_id st w'
        rw [hr] at this
        exact this
      cases res with
      | error e => simpa using hdev
      | ok b =>
        dsimp only
        rcases hc2 : httpCall w'' method (urlOf endpoint)
            (some ("Bearer " ++ st'.access_token.pyStr)) body with ⟨nr2, w3⟩
        cases nr2 <;> simpa using hdev
    · rw [if_neg h4]

/-- A successful refresh-endpoint round trip replaces the token pair as
the assignments in `refresh_access_token` prescribe. -/
theorem refresh_success_eq (st : ClientState) (r : HttpResponse) (rest : List NetResult)
    (log : List RequestRecord) (clock : ℤ)
    (htr : st.refresh_token.truthy = true) (h400 : r.status < 400) :
    refresh_access_token st ⟨NetResult.ok r :: rest, log, clock⟩ =
      (Except.ok true,
       { st with access_token := r.body.pyGet "access_token",
                 refresh_token := r.body.pyGetD "refresh_token" st.refresh_token },
       ⟨rest, log ++ [⟨"POST", urlOf ENDPOINT_REFRESH, none,
         Json.obj [("refresh_token", st.refresh_token)], clock + r.duration⟩],
        clock + r.duration⟩) := by
  unfold refresh_access_token request_noauth httpCall
  dsimp only
  rw [if_pos htr]
  simp only [classify]
  rw [if_neg (by omega), if_neg (by omega)]

/-- When the refresh response carries no `refresh_token` key at all, the
old refresh token survives. -/
theorem refresh_keeps_old_refresh (st : ClientState) (r : HttpResponse)
    (rest : List NetResult) (log : List RequestRecord) (clock : ℤ)
    (htr : st.refresh_token.truthy = true) (h400 : r.status < 400)
    (hnone : r.body.getKey? "refresh_token" = none) :
    (refresh_access_token st ⟨NetResult.ok r :: rest, log, clock⟩).2.1.refresh_token =
      st.refresh_token := by
  rw [refresh_success_eq st r rest log clock htr h400]
  simp [Json.pyGetD, hnone]

/-- When the refresh response carries a `refresh_token` key, its value —
whatever it is, including null — replaces the stored refresh token. -/
theorem refresh_stores_new_refresh (st : ClientState) (r : HttpResponse)
    (rest : List NetResult) (log : List RequestRecord) (clock : ℤ) (v : Json)
    (htr : st.refresh_token.truthy = true) (h400 : r.status < 400)
    (hv : r.body.getKey? "refresh_token" = some v) :
    (refresh_access_token st ⟨NetResult.ok r :: rest, log, clock⟩).2.1.refresh_token = v := by
  rw [refresh_success_eq st r rest log clock htr h400]
  simp [Json.pyGetD, hv]

/-- With no truthy refresh token held, `refresh_access_token` is exactly
a full login. -/
theorem refresh_no_token_fallback (st : ClientState) (w : World)
    (h : st.refresh_token.truthy = false) :
    refresh_access_token st w = authenticate st w := by
  unfold refresh_access_token
  rw [if_neg (by simp [h])]

/-- When the refresh endpoint answers with any HTTP error,
`refresh_access_token` falls back to a full login on the remaining
world. -/
theorem refresh_api_error_fallback (st : ClientState) (r : HttpResponse)
    (rest : List NetResult) (log : List RequestRecord) (clock : ℤ)
    (htr : st.refresh_token.truthy = true) (h400 : 400 ≤ r.status) :
    refresh_access_token st ⟨NetResult.ok r :: rest, log, clock⟩ =
      authenticate st ⟨rest, log ++ [⟨"POST", urlOf ENDPOINT_REFRESH, none,
        Json.obj [("refresh_token", st.refresh_token)], clock + r.duration⟩],
        clock + r.duration⟩ := by
  unfold refresh_access_token request_noauth httpCall
  dsimp only
  rw [if_pos htr]
  simp only [classify]
  by_cases h43 : r.status = 401 ∨ r.status = 403
  · rw [if_pos h43]
  · rw [if_neg h43, if_pos h400]

/-- `get_devices` leaves a truthy device id untouched on every path. -/
theorem get_devices_keeps_truthy_id (st : ClientState) (w : World)
    (h : st.device_id.truthy = true) :
    (get_devices st w).2.1.device_id = st.device_id := by
  unfold get_devices
  rcases hr : _request st w "GET" ENDPOINT_DEVICES Json.null with ⟨res, st', w'⟩
  have hdev : st'.device_id = st.device_id := by
    have := request_device_id st w "GET" ENDPOINT_DEVICES Json.null
    rw [hr] at this
    exact this
  cases res with
  | error e => simpa using hdev
  | ok data =>
    dsimp only
    rw [if_neg (by simp [hdev, h])]
    simpa using hdev

/-- `get_devices` stores the first listed device's id whenever the
stored id is falsy and the list is non-empty. -/
theorem get_devices_sets_first_id (st : ClientState) (r : HttpResponse)
    (rest : List NetResult) (log : List RequestRecord) (clock : ℤ) (d : Json)
    (ds : List Json)
    (hfalse : st.device_id.truthy = false) (h400 : r.status < 400)
    (hdevs : r.body.pyGetD "devices" (Json.arr []) = Json.arr (d :: ds)) :
    (get_devices st ⟨NetResult.ok r :: rest, log, clock⟩).2.1.device_id = d.pyGet "id" := by
  unfold get_devices _request httpCall
  dsimp only
  rw [if_neg (by omega : ¬ r.status = 401)]
  simp only [classify]
  rw [if_neg (by omega), if_neg (by omega)]
  dsimp only
  rw [hdevs]
  rw [if_pos ⟨by simp [Json.truthy], hfalse⟩]

/-- One full `get_all_data` cycle against an all-404 backend: every
category contributes an empty entry, the client state is unchanged, the
seven requests are re-issued (consuming seven scripted responses) and
logged. -/
theorem c7_cycle (n : Nat) (log : List RequestRecord) (clock : ℤ) :
    get_all_data stReady ⟨notFoundScript (n + 7), log, clock⟩ =
      (Except.ok allEmpty, stReady, ⟨notFoundScript n, log ++ cycleRecs clock, clock⟩) := by
  have hexp : notFoundScript (n + 7) =
      scriptEntry CatOutcome.notFound :: scriptEntry CatOutcome.notFound ::
      scriptEntry CatOutcome.notFound :: scriptEntry CatOutcome.notFound ::
      scriptEntry CatOutcome.notFound :: scriptEntry CatOutcome.notFound ::
      scriptEntry CatOutcome.notFound :: notFoundScript n := rfl
  rw [hexp]
  simp only [get_all_data, endpointsList, get_state, get_measurements, get_absence,
    get_leakage_protection, get_selftest, get_water_supply, get_statistics, List.foldl,
    allDataStep_step]
  simp [allEmpty, cycleRecs, devRec, entryOf]

/-! The claims. -/

/-- Claim C1, counterexample: the claim asserts that the wall-clock gap
between the completion timestamps of two consecutive requests is at
least the configured minimum delay (e.g. 2 seconds).  Against a backend
that answers instantly, two consecutive `get_measurements` calls on one
client complete at the same instant: both logged completion timestamps
are 0, so the gap is 0, which is smaller than 2. -/
theorem c1_throttle_counterexample :
    ((get_measurements (get_measurements stReady w2ok).2.1
        (get_measurements stReady w2ok).2.2).2.2.log.map RequestRecord.completedAt
      = [0, 0]) ∧ ((0:ℤ) - 0 < 2) := ⟨rfl, by decide⟩

/-- Claim C1, amended: `_request` serializes nothing and inserts no
delay — there is no lock, no stored last-request time and no sleep.  For
two consecutive `get_measurements` calls the log records completion
times `clock + d1` and `clock + d1 + d2`, where `d1`, `d2` are the
network durations of the two round trips alone: the inter-completion
gap equals `d2`, the second request's own network time, with no lower
bound. -/
theorem c1_no_throttle_gap (st : ClientState) (log : List RequestRecord)
    (clock d1 d2 : ℤ) (b1 b2 : Json) :
    (get_measurements
        (get_measurements st
          ⟨[NetResult.ok ⟨200, b1, "", d1⟩, NetResult.ok ⟨200, b2, "", d2⟩], log, clock⟩).2.1
        (get_measurements st
          ⟨[NetResult.ok ⟨200, b1, "", d1⟩, NetResult.ok ⟨200, b2, "", d2⟩], log, clock⟩).2.2).2.2.log
      = log ++ [⟨"GET", urlOf (ENDPOINT_MEASUREMENTS ++ "/" ++ st.device_id.pyStr),
                  authHeaderOf st, Json.null, clock + d1⟩,
                ⟨"GET", urlOf (ENDPOINT_MEASUREMENTS ++ "/" ++ st.device_id.pyStr),
                  authHeaderOf st, Json.null, clock + d1 + d2⟩] ∧
    (clock + d1 + d2) - (clock + d1) = d2 := by
  constructor
  · simp [get_measurements, fetchPath, _request, httpCall, classify]
  · ring

/-- Claim C2: for every assignment of outcomes (success with an
arbitrary body, or a connection error, HTTP 403, 404 or 500 — all of
them `WatercrystApiError`s) to the seven category fetches,
`get_all_data` returns normally with the snapshot that maps each
successful category to its data and each failed category to an empty
entry; each category's entry is `entryOf` of its own outcome only, and
the client state is unchanged. -/
theorem c2_aggregation_isolation (o : Fin 7 → CatOutcome) (st : ClientState)
    (log : List RequestRecord) (clock : ℤ) :
    (get_all_data st ⟨[scriptEntry (o 0), scriptEntry (o 1), scriptEntry (o 2),
        scriptEntry (o 3), scriptEntry (o 4), scriptEntry (o 5), scriptEntry (o 6)],
      log, clock⟩).1 =
      Except.ok [("state", entryOf (o 0)), ("measurements", entryOf (o 1)),
        ("absence", entryOf (o 2)), ("leakage_protection", entryOf (o 3)),
        ("selftest", entryOf (o 4)), ("water_supply", entryOf (o 5)),
        ("statistics", entryOf (o 6))] ∧
    (get_all_data st ⟨[scriptEntry (o 0), scriptEntry (o 1), scriptEntry (o 2),
        scriptEntry (o 3), scriptEntry (o 4), scriptEntry (o 5), scriptEntry (o 6)],
      log, clock⟩).2.1 = st := by
  simp only [get_all_data, endpointsList, get_state, get_measurements, get_absence,
    get_leakage_protection, get_selftest, get_water_supply, get_statistics, List.foldl,
    allDataStep_step]
  simp

/-- Claim C3: when an authenticated request receives HTTP 401 and
`refresh_access_token` then reports success, `_request` retries the
original request exactly once — the attempt count for the original URL
rises by exactly 2 and every request issued in between targets only the
refresh/login endpoints — using the freshly stored bearer token, and the
caller receives the classification of the retry response (its parsed
body on success, a `WatercrystAuthError` if the retry is answered
401/403), never the intermediate 401.  When the refresh itself fails,
its `WatercrystAuthError` propagates unchanged and no retry is issued
(the attempt count rises by 1 only). -/
theorem c3_auth_retry_once :
    (∀ (st : ClientState) (w : World) (method endpoint : String) (body : Json)
       (r1 : HttpResponse) (w₁ : World) (ok1 : Bool) (st₂ : ClientState) (w₂ : World)
       (r3 : HttpResponse) (w₃ : World),
       httpCall w method (urlOf endpoint) (authHeaderOf st) body = (NetResult.ok r1, w₁) →
       r1.status = 401 →
       refresh_access_token st w₁ = (Except.ok ok1, st₂, w₂) →
       httpCall w₂ method (urlOf endpoint)
           (some ("Bearer " ++ st₂.access_token.pyStr)) body = (NetResult.ok r3, w₃) →
       urlOf endpoint ≠ urlOf ENDPOINT_REFRESH →
       urlOf endpoint ≠ urlOf ENDPOINT_LOGIN →
       (_request st w method endpoint body = (classify r3, st₂, w₃) ∧
        countUrl w₃.log (urlOf endpoint) = countUrl w.log (urlOf endpoint) + 2 ∧
        (r3.status < 400 → classify r3 = Except.ok r3.body) ∧
        (r3.status = 401 ∨ r3.status = 403 →
          classify r3 = Except.error (ApiError.authError
            ("Authentifizierung fehlgeschlagen (HTTP " ++ toString r3.status ++ ")"))))) ∧
    (∀ (st : ClientState) (w : World) (method endpoint : String) (body : Json)
       (r1 : HttpResponse) (w₁ : World) (e : ApiError) (st₂ : ClientState) (w₂ : World),
       httpCall w method (urlOf endpoint) (authHeaderOf st) body = (NetResult.ok r1, w₁) →
       r1.status = 401 →
       refresh_access_token st w₁ = (Except.error e, st₂, w₂) →
       (_request st w method endpoint body = (Except.error e, st₂, w₂) ∧
        e.isAuthError = true ∧
        (urlOf endpoint ≠ urlOf ENDPOINT_REFRESH → urlOf endpoint ≠ urlOf ENDPOINT_LOGIN →
          countUrl w₂.log (urlOf endpoint) = countUrl w.log (urlOf endpoint) + 1))) := by
  constructor
  · intro st w method endpoint body r1 w₁ ok1 st₂ w₂ r3 w₃ h1 h401 h2 h3 hneR hneL
    have hl1 : w₁.log = w.log ++ [⟨method, urlOf endpoint, authHeaderOf st, body, w₁.clock⟩] := by
      have hh := httpCall_log w method (urlOf endpoint) (authHeaderOf st) body
      rw [h1] at hh
      simpa using hh
    have hl3 : w₃.log = w₂.log ++
        [⟨method, urlOf endpoint, some ("Bearer " ++ st₂.access_token.pyStr), body, w₃.clock⟩] := by
      have hh := httpCall_log w₂ method (urlOf endpoint)
        (some ("Bearer " ++ st₂.access_token.pyStr)) body
      rw [h3] at hh
      simpa using hh
    obtain ⟨extra, hex, hurls⟩ := refresh_log_urls st w₁
    rw [h2] at hex
    dsimp only at hex
    refine ⟨?_, ?_, ?_, ?_⟩
    · unfold _request
      rw [h1]
      dsimp only
      rw [if_pos h401, h2]
      dsimp only
      rw [h3]
    · rw [hl3, countUrl_append, hex, countUrl_append, hl1, countUrl_append]
      rw [countUrl_zero extra (urlOf endpoint) ?_]
      · rw [countUrl_single_self, countUrl_single_self]
      · intro rec hmem
        rcases hurls rec hmem with h | h <;> rw [h]
        · exact fun hc => hneR hc.symm
        · exact fun hc => hneL hc.symm
    · intro hlt
      simp only [classify]
      rw [if_neg (by omega), if_neg (by omega)]
    · intro hor
      simp only [classify]
      rw [if_pos hor]
  · intro st w method endpoint body r1 w₁ e st₂ w₂ h1 h401 h2
    have hl1 : w₁.log = w.log ++ [⟨method, urlOf endpoint, authHeaderOf st, body, w₁.clock⟩] := by
      have hh := httpCall_log w method (urlOf endpoint) (authHeaderOf st) body
      rw [h1] at hh
      simpa using hh
    obtain ⟨extra, hex, hurls⟩ := refresh_log_urls st w₁
    rw [h2] at hex
    dsimp only at hex
    refine ⟨?_, refresh_error_auth st w₁ e st₂ w₂ h2, ?_⟩
    · unfold _request
      rw [h1]
      dsimp only
      rw [if_pos h401, h2]
    · intro hneR hneL
      rw [hex, countUrl_append, hl1, countUrl_append]
      rw [countUrl_zero extra (urlOf endpoint) ?_]
      · rw [countUrl_single_self]
      · intro rec hmem
        rcases hurls rec hmem with h | h <;> rw [h]
        · exact fun hc => hneR hc.symm
        · exact fun hc => hneL hc.symm

/-- Claim C3, witness: a concrete run of the retry-success scenario —
first response 401, refresh returns a new token `A1`, the retried
request succeeds — in which the caller receives the retry's body, the
original URL is requested exactly twice (once with the old and once with
the new bearer token), and the refresh request sits in between. -/
theorem c3_auth_retry_once_witness :
    _request stReady wRetry "GET" "/state/dev1" Json.null =
      (Except.ok (Json.obj [("x", Json.bool true)]),
       ⟨"user", "pw", Json.str "A1", Json.str "tokR", Json.str "dev1"⟩,
       ⟨[], [⟨"GET", urlOf "/state/dev1", some "Bearer tokA", Json.null, 0⟩,
             ⟨"POST", urlOf ENDPOINT_REFRESH, none,
               Json.obj [("refresh_token", Json.str "tokR")], 0⟩,
             ⟨"GET", urlOf "/state/dev1", some "Bearer A1", Json.null, 0⟩], 0⟩) ∧
    countUrl [⟨"GET", urlOf "/state/dev1", some "Bearer tokA", Json.null, 0⟩,
             ⟨"POST", urlOf ENDPOINT_REFRESH, none,
               Json.obj [("refresh_token", Json.str "tokR")], 0⟩,
             ⟨"GET", urlOf "/state/dev1", some "Bearer A1", Json.null, 0⟩]
      (urlOf "/state/dev1") = countUrl ([] : List RequestRecord) (urlOf "/state/dev1") + 2 := by
  have h := c3_auth_retry_once.1 stReady wRetry "GET" "/state/dev1" Json.null
    ⟨401, Json.null, "", 0⟩
    ⟨[NetResult.ok ⟨200, Json.obj [("access_token", Json.str "A1")], "", 0⟩,
      NetResult.ok ⟨200, Json.obj [("x", Json.bool true)], "", 0⟩],
     [⟨"GET", urlOf "/state/dev1", some "Bearer tokA", Json.null, 0⟩], 0⟩
    true
    ⟨"user", "pw", Json.str "A1", Json.str "tokR", Json.str "dev1"⟩
    ⟨[NetResult.ok ⟨200, Json.obj [("x", Json.bool true)], "", 0⟩],
     [⟨"GET", urlOf "/state/dev1", some "Bearer tokA", Json.null, 0⟩,
      ⟨"POST", urlOf ENDPOINT_REFRESH, none,
        Json.obj [("refresh_token", Json.str "tokR")], 0⟩], 0⟩
    ⟨200, Json.obj [("x", Json.bool true)], "", 0⟩
    ⟨[], [⟨"GET", urlOf "/state/dev1", some "Bearer tokA", Json.null, 0⟩,
          ⟨"POST", urlOf ENDPOINT_REFRESH, none,
            Json.obj [("refresh_token", Json.str "tokR")], 0⟩,
          ⟨"GET", urlOf "/state/dev1", some "Bearer A1", Json.null, 0⟩], 0⟩
    rfl rfl rfl rfl (by decide) (by decide)
  exact ⟨h.1.trans rfl, h.2.1⟩

/-- Claim C4 (code bug): the coordinator's `_async_update_data` can
never surface the needs-re-authentication signal `ConfigEntryAuthFailed`
from a poll cycle, because `get_all_data` catches every
`WatercrystApiError` — including its subclass `WatercrystAuthError` —
per category and completes the cycle with a snapshot.  At a concrete
poll in which the state fetch runs into an unrecoverable auth failure
(401, refresh 500, fallback login 401), `get_state` raises a
`WatercrystAuthError`, yet the coordinator returns a normal snapshot
with an empty `state` entry. -/
theorem c4_auth_signal_never_surfaced :
    (∀ (st : ClientState) (w : World), isAuthSignal (_async_update_data st w).1 = false) ∧
    (get_state stReady wC4state).1
      = Except.error (ApiError.authError "Authentifizierung fehlgeschlagen") ∧
    (ApiError.authError "Authentifizierung fehlgeschlagen").isAuthError = true ∧
    (_async_update_data stReady wC4).1
      = Except.ok [("state", Json.obj []),
          ("measurements", Json.obj [("pressure", Json.num 3)]),
          ("absence", Json.obj []), ("leakage_protection", Json.obj []),
          ("selftest", Json.obj []), ("water_supply", Json.obj []),
          ("statistics", Json.obj [])] := by
  refine ⟨?_, rfl, rfl, rfl⟩
  intro st w
  obtain ⟨d, st', w', h⟩ := get_all_data_returns st w
  simp [_async_update_data, h, isAuthSignal]

/-- Claim C5 (code bug): `_request` itself surfaces a network failure or
a timeout of the issued request as `WatercrystConnectionError`, as the
claim says; but when the failing request is the login request issued by
`authenticate`, the `WatercrystConnectionError` is caught by
`authenticate`'s blanket `except WatercrystApiError` and re-raised as a
`WatercrystAuthError`, contradicting the claim (and `authenticate`'s own
docstring). -/
theorem c5_connection_failure_taxonomy :
    (∀ (st : ClientState) (rest : List NetResult) (log : List RequestRecord) (clock : ℤ)
       (method endpoint : String) (body : Json),
      (_request st ⟨NetResult.connError :: rest, log, clock⟩ method endpoint body).1
        = Except.error (ApiError.connectionError
            "Verbindung zur Watercryst-API fehlgeschlagen")) ∧
    (∀ (st : ClientState) (rest : List NetResult) (log : List RequestRecord) (clock : ℤ)
       (method endpoint : String) (body : Json),
      (_request st ⟨NetResult.timedOut :: rest, log, clock⟩ method endpoint body).1
        = Except.error (ApiError.connectionError
            "Timeout bei der Verbindung zur Watercryst-API")) ∧
    (authenticate stReady ⟨[NetResult.connError], [], 0⟩).1
      = Except.error (ApiError.authError "Authentifizierung fehlgeschlagen") ∧
    (authenticate stReady ⟨[NetResult.timedOut], [], 0⟩).1
      = Except.error (ApiError.authError "Authentifizierung fehlgeschlagen") ∧
    (ApiError.authError "Authentifizierung fehlgeschlagen").isConnectionError = false ∧
    (ApiError.authError "Authentifizierung fehlgeschlagen").isAuthError = true := by
  refine ⟨?_, ?_, rfl, rfl, rfl, rfl⟩ <;>
    · intro st rest log clock method endpoint body
      simp [_request, httpCall]

/-- Claim C6, counterexample: the claim says the stored refresh token is
replaced only if the response contains a new one and is kept otherwise.
When the refresh endpoint answers 200 with `refresh_token: null`, the
response contains no new refresh token, yet the stored token `tokR` is
not kept: it is overwritten with null (Python
`data.get("refresh_token", old)` returns the stored null, not the
default). -/
theorem c6_refresh_token_counterexample :
    stReady.refresh_token = Json.str "tokR" ∧
    (refresh_access_token stReady wRefreshNull).1 = Except.ok true ∧
    (refresh_access_token stReady wRefreshNull).2.1.refresh_token = Json.null ∧
    (refresh_access_token stReady wRefreshNull).2.1.refresh_token.isNull = true ∧
    (Json.str "tokR").isNull = false :=
  ⟨rfl, rfl, rfl, rfl, rfl⟩

/-- Claim C6, amended: on a successful refresh the access token is
replaced by the response's `access_token` and the refresh token by the
response's `refresh_token` value whenever that key is present (even when
its value is null); the old refresh token is kept only when the key is
absent.  With no truthy refresh token held, or when the refresh call
fails with any `WatercrystApiError`, the method falls back to a full
login and returns its result. -/
theorem c6_refresh_token_amended :
    (∀ (st : ClientState) (r : HttpResponse) (rest : List NetResult)
       (log : List RequestRecord) (clock : ℤ),
       st.refresh_token.truthy = true → r.status < 400 →
       ((refresh_access_token st ⟨NetResult.ok r :: rest, log, clock⟩).1 = Except.ok true ∧
        (refresh_access_token st ⟨NetResult.ok r :: rest, log, clock⟩).2.1.access_token =
          r.body.pyGet "access_token")) ∧
    (∀ (st : ClientState) (r : HttpResponse) (rest : List NetResult)
       (log : List RequestRecord) (clock : ℤ),
       st.refresh_token.truthy = true → r.status < 400 →
       r.body.getKey? "refresh_token" = none →
       (refresh_access_token st ⟨NetResult.ok r :: rest, log, clock⟩).2.1.refresh_token =
         st.refresh_token) ∧
    (∀ (st : ClientState) (r : HttpResponse) (rest : List NetResult)
       (log : List RequestRecord) (clock : ℤ) (v : Json),
       st.refresh_token.truthy = true → r.status < 400 →
       r.body.getKey? "refresh_token" = some v →
       (refresh_access_token st ⟨NetResult.ok r :: rest, log, clock⟩).2.1.refresh_token = v) ∧
    (∀ (st : ClientState) (w : World),
       st.refresh_token.truthy = false →
       refresh_access_token st w = authenticate st w) ∧
    (∀ (st : ClientState) (r : HttpResponse) (rest : List NetResult)
       (log : List RequestRecord) (clock : ℤ),
       st.refresh_token.truthy = true → 400 ≤ r.status →
       refresh_access_token st ⟨NetResult.ok r :: rest, log, clock⟩ =
         authenticate st ⟨rest, log ++ [⟨"POST", urlOf ENDPOINT_REFRESH, none,
           Json.obj [("refresh_token", st.refresh_token)], clock + r.duration⟩],
           clock + r.duration⟩) := by
  refine ⟨?_, ?_, ?_, ?_, ?_⟩
  · intro st r rest log clock htr h400
    rw [refresh_success_eq st r rest log clock htr h400]
    exact ⟨rfl, rfl⟩
  · intro st r rest log clock htr h400 hnone
    exact refresh_keeps_old_refresh st r rest log clock htr h400 hnone
  · intro st r rest log clock v htr h400 hv
    exact refresh_stores_new_refresh st r rest log clock v htr h400 hv
  · intro st w h
    exact refresh_no_token_fallback st w h
  · intro st r rest log clock htr h400
    exact refresh_api_error_fallback st r rest log clock htr h400

/-- Claim C6, witness: concrete runs of all five amended cases — a
refresh response without a `refresh_token` key keeps `tokR`, one with
`refresh_token: "R2"` stores `R2`, a client without a refresh token
falls back to login, and a 500 from the refresh endpoint falls back to
login on the remaining script. -/
theorem c6_refresh_token_amended_witness :
    ((refresh_access_token stReady
        ⟨[NetResult.ok ⟨200, Json.obj [("access_token", Json.str "A1")], "", 0⟩], [], 0⟩).1 =
      Except.ok true ∧
     (refresh_access_token stReady
        ⟨[NetResult.ok ⟨200, Json.obj [("access_token", Json.str "A1")], "", 0⟩], [], 0⟩).2.1.access_token =
      Json.str "A1") ∧
    (refresh_access_token stReady
        ⟨[NetResult.ok ⟨200, Json.obj [("access_token", Json.str "A1")], "", 0⟩], [], 0⟩).2.1.refresh_token =
      Json.str "tokR" ∧
    (refresh_access_token stReady
        ⟨[NetResult.ok ⟨200, Json.obj [("access_token", Json.str "A1"),
            ("refresh_token", Json.str "R2")], "", 0⟩], [], 0⟩).2.1.refresh_token =
      Json.str "R2" ∧
    refresh_access_token ⟨"user", "pw", Json.null, Json.null, Json.null⟩ ⟨[], [], 0⟩ =
      authenticate ⟨"user", "pw", Json.null, Json.null, Json.null⟩ ⟨[], [], 0⟩ ∧
    refresh_access_token stReady ⟨[NetResult.ok ⟨500, Json.null, "boom", 0⟩], [], 0⟩ =
      authenticate stReady ⟨[], [⟨"POST", urlOf ENDPOINT_REFRESH, none,
        Json.obj [("refresh_token", Json.str "tokR")], 0⟩], 0⟩ := by
  refine ⟨?_, ?_, ?_, ?_, ?_⟩
  · exact c6_refresh_token_amended.1 stReady
      ⟨200, Json.obj [("access_token", Json.str "A1")], "", 0⟩ [] [] 0 rfl (by decide)
  · exact c6_refresh_token_amended.2.1 stReady
      ⟨200, Json.obj [("access_token", Json.str "A1")], "", 0⟩ [] [] 0 rfl (by decide) rfl
  · exact c6_refresh_token_amended.2.2.1 stReady
      ⟨200, Json.obj [("access_token", Json.str "A1"), ("refresh_token", Json.str "R2")], "", 0⟩
      [] [] 0 (Json.str "R2") rfl (by decide) rfl
  · exact c6_refresh_token_amended.2.2.2.1
      ⟨"user", "pw", Json.null, Json.null, Json.null⟩ ⟨[], [], 0⟩ rfl
  · exact (c6_refresh_token_amended.2.2.2.2 stReady
      ⟨500, Json.null, "boom", 0⟩ [] [] 0 rfl (by decide)).trans rfl

/-- Claim C7, counterexample: the claim says the first 404 retires an
optional endpoint so its HTTP call count stays at 1.  Against an all-404
backend, two consecutive `get_all_data` cycles issue the statistics
request twice — the count is 2, not 1. -/
theorem c7_not_found_counterexample :
    countUrl ((get_all_data (get_all_data stReady w404).2.1
        (get_all_data stReady w404).2.2).2.2.log)
      (urlOf (ENDPOINT_STATISTICS ++ "/dev1")) = 2 ∧ (1:Nat) < 2 := ⟨rfl, by decide⟩

/-- Claim C7, amended: the client holds no per-endpoint availability
flag.  A 404 raises a generic `WatercrystApiError` on every call;
`get_all_data` maps it to an empty entry for that category on every
cycle and re-issues the request in the next cycle, so the HTTP call
count for the endpoint grows by one per cycle: after two cycles it has
risen by 2 over whatever was logged before. -/
theorem c7_not_found_amended (log : List RequestRecord) (clock : ℤ) :
    (get_all_data stReady ⟨notFoundScript 14, log, clock⟩).1 = Except.ok allEmpty ∧
    (get_all_data (get_all_data stReady ⟨notFoundScript 14, log, clock⟩).2.1
        (get_all_data stReady ⟨notFoundScript 14, log, clock⟩).2.2).1 = Except.ok allEmpty ∧
    countUrl ((get_all_data (get_all_data stReady ⟨notFoundScript 14, log, clock⟩).2.1
        (get_all_data stReady ⟨notFoundScript 14, log, clock⟩).2.2).2.2.log)
      (urlOf (ENDPOINT_STATISTICS ++ "/dev1"))
      = countUrl log (urlOf (ENDPOINT_STATISTICS ++ "/dev1")) + 2 := by
  have hc1 : get_all_data stReady ⟨notFoundScript 14, log, clock⟩ =
      (Except.ok allEmpty, stReady, ⟨notFoundScript 7, log ++ cycleRecs clock, clock⟩) :=
    c7_cycle 7 log clock
  have hc2 : get_all_data stReady ⟨notFoundScript 7, log ++ cycleRecs clock, clock⟩ =
      (Except.ok allEmpty, stReady,
       ⟨notFoundScript 0, (log ++ cycleRecs clock) ++ cycleRecs clock, clock⟩) :=
    c7_cycle 0 (log ++ cycleRecs clock) clock
  rw [hc1]
  dsimp only
  rw [hc2]
  refine ⟨rfl, rfl, ?_⟩
  rw [countUrl_append, countUrl_append]
  have h1 : countUrl (cycleRecs clock) (urlOf (ENDPOINT_STATISTICS ++ "/dev1")) = 1 := rfl
  rw [h1]

/-- Claim C8, counterexample: in the end-to-end scenario the claim
expects the flattened top-level keys `waterTemp`, `mode_name` and
`consumption_daily` in the snapshot.  The snapshot produced by
`get_all_data` has none of them: the measurement values stay nested
under the `measurements` category key. -/
theorem c8_flattening_counterexample :
    ((get_all_data stReady w8).1.map
        (fun l => (l.lookup "waterTemp", l.lookup "mode_name", l.lookup "consumption_daily",
          l.lookup "measurements")))
      = Except.ok (none, none, none, some measBody) := rfl

/-- Claim C8, amended: `get_all_data` groups each category's raw parsed
body under its category key and performs no flattening and no
numeric-text parsing: the scenario's snapshot is the state body
verbatim under `state`, the measurements object (with `waterTemp`
nested inside it) under `measurements`, and the JSON value 109.56 under
`statistics` — `_request` parses bodies only with `response.json()`. -/
theorem c8_snapshot_amended :
    (get_all_data stReady w8).1 =
      Except.ok [("state", stateBody), ("measurements", measBody),
        ("absence", Json.obj []), ("leakage_protection", Json.obj []),
        ("selftest", Json.obj []), ("water_supply", Json.obj []),
        ("statistics", Json.num 109.56)] := rfl

/-- Claim C9, counterexample: the claim says that after a 2xx login
response without a non-empty `access_token` the stored access token has
been overwritten with None.  When the response carries
`access_token: ""`, `authenticate` raises the expected
`WatercrystAuthError`, but the stored access token is the empty string,
not None (and the refresh token is the response's value). -/
theorem c9_token_clobber_counterexample :
    (authenticate stReady wLoginEmptyTok).1 =
      Except.error (ApiError.authError "Kein Access-Token in der API-Antwort erhalten") ∧
    (authenticate stReady wLoginEmptyTok).2.1.access_token = Json.str "" ∧
    (authenticate stReady wLoginEmptyTok).2.1.access_token.isNull = false ∧
    (authenticate stReady wLoginEmptyTok).2.1.refresh_token = Json.str "R" ∧
    authHeaderOf (authenticate stReady wLoginEmptyTok).2.1 = none :=
  ⟨rfl, rfl, rfl, rfl, rfl⟩

/-- Claim C9, amended: when the login endpoint answers 2xx without a
truthy `access_token`, `authenticate` raises `WatercrystAuthError`
after having already overwritten the stored access token with the
response's `access_token` value (None when absent or null, possibly an
empty string) and the stored refresh token with the response's
`refresh_token`; the stored access token is falsy in every such case,
so subsequent authenticated requests attach no Authorization header. -/
theorem c9_token_clobber_amended (st : ClientState) (r : HttpResponse)
    (rest : List NetResult) (log : List RequestRecord) (clock : ℤ)
    (h400 : r.status < 400) (hno : (r.body.pyGet "access_token").truthy = false) :
    (authenticate st ⟨NetResult.ok r :: rest, log, clock⟩).1 =
      Except.error (ApiError.authError "Kein Access-Token in der API-Antwort erhalten") ∧
    (authenticate st ⟨NetResult.ok r :: rest, log, clock⟩).2.1.access_token =
      r.body.pyGet "access_token" ∧
    (authenticate st ⟨NetResult.ok r :: rest, log, clock⟩).2.1.refresh_token =
      r.body.pyGet "refresh_token" ∧
    authHeaderOf (authenticate st ⟨NetResult.ok r :: rest, log, clock⟩).2.1 = none := by
  have hred : authenticate st ⟨NetResult.ok r :: rest, log, clock⟩ =
      (Except.error (ApiError.authError "Kein Access-Token in der API-Antwort erhalten"),
       { st with access_token := r.body.pyGet "access_token",
                 refresh_token := r.body.pyGet "refresh_token" },
       ⟨rest, log ++ [⟨"POST", urlOf ENDPOINT_LOGIN, none,
         Json.obj [("username", Json.str st.username), ("password", Json.str st.password)],
         clock + r.duration⟩], clock + r.duration⟩) := by
    unfold authenticate request_noauth httpCall
    dsimp only
    simp only [classify]
    rw [if_neg (by omega), if_neg (by omega)]
    dsimp only
    rw [if_neg (by simp [hno])]
  rw [hred]
  refine ⟨rfl, rfl, rfl, ?_⟩
  simp [authHeaderOf, hno]

/-- Claim C9, witness: a login answered 2xx with an empty JSON object —
no `access_token` at all — overwrites both stored tokens of the
logged-in client `stReady` with None and raises the missing-token auth
error; the resulting state attaches no Authorization header. -/
theorem c9_token_clobber_amended_witness :
    (authenticate stReady ⟨[NetResult.ok ⟨200, Json.obj [], "", 0⟩], [], 0⟩).1 =
      Except.error (ApiError.authError "Kein Access-Token in der API-Antwort erhalten") ∧
    (authenticate stReady ⟨[NetResult.ok ⟨200, Json.obj [], "", 0⟩], [], 0⟩).2.1.access_token =
      Json.null ∧
    (authenticate stReady ⟨[NetResult.ok ⟨200, Json.obj [], "", 0⟩], [], 0⟩).2.1.refresh_token =
      Json.null ∧
    authHeaderOf (authenticate stReady ⟨[NetResult.ok ⟨200, Json.obj [], "", 0⟩], [], 0⟩).2.1 =
      none :=
  c9_token_clobber_amended stReady ⟨200, Json.obj [], "", 0⟩ [] [] 0 (by decide) rfl

/-- Claim C10, counterexample: the claim says `get_devices` leaves a
non-None device id unchanged.  With the device id set to the empty
string — non-None, but falsy — `get_devices` overwrites it with the
first listed device's id `dev1`. -/
theorem c10_device_id_counterexample :
    stEmptyId.device_id = Json.str "" ∧
    stEmptyId.device_id.isNull = false ∧
    (get_devices stEmptyId wDevices).2.1.device_id = Json.str "dev1" ∧
    ((get_devices stEmptyId wDevices).2.1.device_id.strVal? == stEmptyId.device_id.strVal?)
      = false :=
  ⟨rfl, rfl, rfl, rfl⟩

/-- Claim C10, amended: `get_devices` leaves the device id unchanged
whenever it is truthy (a non-empty string), on every path; it assigns
the first listed device's id exactly when the stored id is falsy —
None or the empty string — and the returned list is non-empty. -/
theorem c10_device_id_amended :
    (∀ (st : ClientState) (w : World), st.device_id.truthy = true →
       (get_devices st w).2.1.device_id = st.device_id) ∧
    (∀ (st : ClientState) (r : HttpResponse) (rest : List NetResult)
       (log : List RequestRecord) (clock : ℤ) (d : Json) (ds : List Json),
       st.device_id.truthy = false → r.status < 400 →
       r.body.pyGetD "devices" (Json.arr []) = Json.arr (d :: ds) →
       (get_devices st ⟨NetResult.ok r :: rest, log, clock⟩).2.1.device_id = d.pyGet "id") := by
  constructor
  · intro st w h
    exact get_devices_keeps_truthy_id st w h
  · intro st r rest log clock d ds hfalse h400 hdevs
    exact get_devices_sets_first_id st r rest log clock d ds hfalse h400 hdevs

/-- Claim C10, witness: the ready client keeps its id `dev1` across a
`get_devices` call, and a client with a falsy (empty) id receives the
first listed device's id. -/
theorem c10_device_id_amended_witness :
    stReady.device_id.truthy = true ∧
    (get_devices stReady ⟨[], [], 0⟩).2.1.device_id = stReady.device_id ∧
    stEmptyId.device_id.truthy = false ∧
    (get_devices stEmptyId wDevices).2.1.device_id = Json.str "dev1" := by
  refine ⟨rfl, c10_device_id_amended.1 stReady ⟨[], [], 0⟩ rfl, rfl, ?_⟩
  exact (c10_device_id_amended.2 stEmptyId
    ⟨200, Json.obj [("devices",
      Json.arr [Json.obj [("id", Json.str "dev1")], Json.obj [("id", Json.str "dev2")]])],
      "", 0⟩
    [] [] 0 (Json.obj [("id", Json.str "dev1")]) [Json.obj [("id", Json.str "dev2")]]
    rfl (by decide) rfl).trans rfl

end Watercryst
